import Mathlib

/-!
Shallow embedding of the GoHighLevel MCP adapter (TypeScript sources under
`src/`): the `GHLApiClient` HTTP client class and the per-domain tool
modules (`LocationTools`, `ConversationTools`, `EmailISVTools`,
`ContactTools`, `EmailTools`, `MediaTools`, `OpportunityTools`,
`WorkflowTools`).

Modelling conventions:
* JavaScript `undefined`/missing fields become `Option`; the `x || d`
  idiom on strings and numbers is embedded by `jsOr`/`jsOrNat` (the empty
  string and `0` are the falsy values of those types).
* A thrown JS `Error` is modelled by its message string; a function that
  can throw returns `Except String α`.
* The single network round trip of each client method is an explicit
  `remote : Except AxiosErr β` argument: `.ok` is a 2xx response body,
  `.error` is the axios rejection that the client's response interceptor
  transforms (see `interceptReject`) before the method's own `catch` sees
  it.
* Remote-owned JSON objects are opaque `Payload` values; a present object
  is always truthy in JS, so object-truthiness is `Option.isSome`.
-/

/-- `ClientConfig` of the client (`GHLConfig`): base URL, bearer token,
API version header and the default location id (part_002, constructor). -/
structure ClientConfig where
  baseUrl : String
  accessToken : String
  version : String
  locationId : String
deriving DecidableEq

/-- The `message` field of a GHL error body: either a string or an array
of strings (`Array.isArray(message)` branch in `handleApiError`). -/
inductive MsgField where
  | str (s : String)
  | arr (items : List String)
deriving DecidableEq

/-- The body (`data`) of a non-2xx axios response, keeping the only field
`handleApiError` reads: `message`. -/
structure ErrData where
  message : Option MsgField
deriving DecidableEq

/-- A non-2xx HTTP response attached to an axios error
(`error.response`). -/
structure HttpResponse where
  status : Nat
  data : Option ErrData
deriving DecidableEq

/-- An axios rejection value: `response` is absent for transport errors
(connection failure, timeout); `message` is the error's own text.  A
plain (already normalized) JS `Error` re-entering `handleApiError` also
has this shape, with `response := none`. -/
structure AxiosErr where
  response : Option HttpResponse
  message : Option String
deriving DecidableEq

/-- JS `x || d` for an optional string: the empty string is falsy. -/
def jsOr : Option String → String → String
  | none, d => d
  | some s, d => if s = "" then d else s

/-- JS `x || d` for an optional number: `0` is falsy. -/
def jsOrNat : Option Nat → Nat → Nat
  | none, d => d
  | some n, d => if n = 0 then d else n

/-- JS truthiness of an optional string argument. -/
def optStrTruthy : Option String → Bool
  | some s => decide (s ≠ "")
  | none => false

/-- JS truthiness of an optional boolean argument. -/
def boolTruthy : Option Bool → Bool
  | some b => b
  | none => false

/-- JS truthiness of a `message` body field: a string is truthy iff
non-empty, an array is an object and hence always truthy. -/
def msgFieldTruthy : MsgField → Bool
  | .str s => decide (s ≠ "")
  | .arr _ => true

/-- `error.response?.status || 500` (part_002 line 165). -/
def apiErrStatus (e : AxiosErr) : Nat :=
  match e.response with
  | some r => if r.status = 0 then 500 else r.status
  | none => 500

/-- `error.response?.data?.message || error.message || 'Unknown error'`
(part_002 line 166). -/
def apiErrMessageField (e : AxiosErr) : MsgField :=
  let fallback : MsgField :=
    match e.message with
    | some s => if s = "" then MsgField.str "Unknown error" else MsgField.str s
    | none => MsgField.str "Unknown error"
  match e.response.bind (fun r => r.data.bind (fun d => d.message)) with
  | some m => if msgFieldTruthy m then m else fallback
  | none => fallback

/-- `Array.isArray(message) ? message.join(', ') : message`
(part_002 line 167). -/
def joinMsgField : MsgField → String
  | .str s => s
  | .arr items => String.intercalate ", " items

/-- `GHLApiClient.handleApiError` (part_002 lines 164-169): converts any
axios failure into a single `Error` whose message is
`GHL API Error (<status>): <message>`. -/
def handleApiError (e : AxiosErr) : String :=
  "GHL API Error (" ++ toString (apiErrStatus e) ++ "): " ++
    joinMsgField (apiErrMessageField e)

/-- The response interceptor (part_002 lines 149-159): every rejected
request is replaced by `Promise.reject(this.handleApiError(error))`, so
a method's `catch` receives the normalized `Error`, not the axios
error. -/
def interceptReject (e : AxiosErr) : String := handleApiError e

/-- A plain JS `Error` (message only) viewed as the argument of a second
`handleApiError` application: it has no `response` field. -/
def plainErr (msg : String) : AxiosErr :=
  { response := none, message := some msg }

/-- Error payload of the `ApiResult` failure arm
(`{message, statusCode?, details?}`). -/
structure ApiError where
  message : String
  statusCode : Nat
  details : Option ErrData
deriving DecidableEq

/-- `ApiResult<T>`: the `{success, data}` / `{success:false, error}`
envelope every client method produces. -/
structure ApiResult (α : Type) where
  success : Bool
  data : Option α
  error : Option ApiError := none
deriving DecidableEq

/-- `GHLApiClient.wrapResponse` (part_002 lines 173-178):
`{ success: true, data }`.  The argument is `Option` because callers pass
possibly-`undefined` sub-fields of the response body. -/
def wrapResponse {α : Type} (d : Option α) : ApiResult α :=
  { success := true, data := d, error := none }

/-- Opaque remote-owned JSON object (contact, opportunity, location...).
The adapter passes these through without inspecting them. -/
structure Payload where
  raw : String
deriving DecidableEq

/-- `GHLApiClient.updateAccessToken` (part_002 lines 1032-1036): the only
write to `this.config`, setting `accessToken` to the new token. -/
def GHLApiClient.updateAccessToken (cfg : ClientConfig) (newToken : String) :
    ClientConfig :=
  { cfg with accessToken := newToken }

/-- `GHLApiClient.getConfig` (part_002 lines 1040-1042): returns a spread
copy `{...this.config}`, value-equal to the config itself. -/
def GHLApiClient.getConfig (cfg : ClientConfig) : ClientConfig := cfg

/-- Request object of `createContact`, keeping the field the method
inspects (`locationId`); the remaining contact fields are passed through
opaquely. -/
structure CreateContactReq where
  locationId : Option String
deriving DecidableEq

/-- The `locationId` written into the `createContact` payload
(part_002 lines 200-203): `contactData.locationId || this.config.locationId`. -/
def createContactLocationId (cfg : ClientConfig) (c : CreateContactReq) : String :=
  jsOr c.locationId cfg.locationId

/-- 2xx body of `POST /contacts/`; the method unwraps
`response.data.contact`. -/
structure ContactBody where
  contact : Option Payload
deriving DecidableEq

/-- `GHLApiClient.createContact` (part_002 lines 197-210).  Its `catch`
rethrows the interceptor-normalized error unchanged (`throw error`). -/
def GHLApiClient.createContact (cfg : ClientConfig) (c : CreateContactReq)
    (remote : Except AxiosErr ContactBody) : Except String (ApiResult Payload) :=
  let _payloadLocationId := createContactLocationId cfg c
  match remote with
  | .ok body => .ok (wrapResponse body.contact)
  | .error e => .error (interceptReject e)

/-- Request object of `searchContacts`, keeping the fields the payload
construction inspects for the claims (`locationId`, `limit`). -/
structure SearchContactsReq where
  locationId : Option String
  limit : Option Nat
deriving DecidableEq

/-- `locationId` of the `searchContacts` payload (part_002 line 259):
`searchParams.locationId || this.config.locationId`. -/
def searchContactsLocationId (cfg : ClientConfig) (p : SearchContactsReq) : String :=
  jsOr p.locationId cfg.locationId

/-- `pageLimit` of the `searchContacts` payload (part_002 line 260):
`searchParams.limit || 25`. -/
def searchContactsPageLimit (p : SearchContactsReq) : Nat :=
  jsOrNat p.limit 25

/-- `GHLApiClient.searchContacts` (part_002 lines 254-319): the only
search-family method that catches the HTTP failure and returns a
`{success:false, error:{message, statusCode, details}}` result instead of
throwing.  The caught value is the interceptor-normalized plain `Error`,
so `handleApiError` is applied to it a second time and
`axiosError.response` is absent. -/
def GHLApiClient.searchContacts (cfg : ClientConfig) (p : SearchContactsReq)
    (remote : Except AxiosErr Payload) : Except String (ApiResult Payload) :=
  let _payloadLocationId := searchContactsLocationId cfg p
  match remote with
  | .ok body => .ok (wrapResponse (some body))
  | .error e =>
      let axiosError := plainErr (interceptReject e)
      .ok { success := false
          , data := none
          , error := some
              { message := handleApiError axiosError
              , statusCode := apiErrStatus axiosError
              , details := axiosError.response.bind (fun r => r.data) } }

/-- Request object of `searchConversations` (only `locationId` is
inspected by the method itself; the rest is spread into the query). -/
structure SearchConversationsReq where
  locationId : Option String
deriving DecidableEq

/-- `locationId` of the `searchConversations` query (part_002 line 380):
`searchParams.locationId || this.config.locationId`. -/
def searchConversationsLocationId (cfg : ClientConfig)
    (p : SearchConversationsReq) : String :=
  jsOr p.locationId cfg.locationId

/-- `GHLApiClient.searchConversations` (part_002 lines 375-391): its
`catch` rethrows the interceptor error unchanged (`throw error`). -/
def GHLApiClient.searchConversations (cfg : ClientConfig)
    (p : SearchConversationsReq) (remote : Except AxiosErr Payload) :
    Except String (ApiResult Payload) :=
  let _queryLocationId := searchConversationsLocationId cfg p
  match remote with
  | .ok body => .ok (wrapResponse (some body))
  | .error e => .error (interceptReject e)

/-- Request object of `searchOpportunities`, keeping the field the
query construction merges (`location_id`, API naming with underscore). -/
structure SearchOpportunitiesReq where
  location_id : Option String
deriving DecidableEq

/-- `location_id` of the `searchOpportunities` query (part_002 line 1054):
`searchParams.location_id || this.config.locationId`. -/
def searchOpportunitiesLocationId (cfg : ClientConfig)
    (p : SearchOpportunitiesReq) : String :=
  jsOr p.location_id cfg.locationId

/-- `GHLApiClient.searchOpportunities` (part_002 lines 1050-1128): its
`catch` throws `this.handleApiError(error)` where `error` is already the
interceptor-normalized `Error`, producing a double-wrapped message. -/
def GHLApiClient.searchOpportunities (cfg : ClientConfig)
    (p : SearchOpportunitiesReq) (remote : Except AxiosErr Payload) :
    Except String (ApiResult Payload) :=
  let _queryLocationId := searchOpportunitiesLocationId cfg p
  match remote with
  | .ok body => .ok (wrapResponse (some body))
  | .error e => .error (handleApiError (plainErr (interceptReject e)))

/-- `locationId` of the `getPipelines` query (part_002 lines 1135-1137):
`locationId || this.config.locationId`. -/
def getPipelinesLocationId (cfg : ClientConfig) (locationId : Option String) :
    String :=
  jsOr locationId cfg.locationId

/-- `GHLApiClient.getPipelines` (part_002 lines 1133-1144): wraps
`response.data`; its `catch` throws `this.handleApiError(error)`. -/
def GHLApiClient.getPipelines (cfg : ClientConfig) (locationId : Option String)
    (remote : Except AxiosErr Payload) : Except String (ApiResult Payload) :=
  let _queryLocationId := getPipelinesLocationId cfg locationId
  match remote with
  | .ok body => .ok (wrapResponse (some body))
  | .error e => .error (handleApiError (plainErr (interceptReject e)))

/-- 2xx body of `GET /opportunities/{id}`; the method unwraps
`response.data.opportunity`. -/
structure OpportunityBody where
  opportunity : Option Payload
deriving DecidableEq

/-- `GHLApiClient.getOpportunity` (part_002 lines 1149-1157): wraps
`response.data.opportunity`; its `catch` throws
`this.handleApiError(error)` on the already-normalized error. -/
def GHLApiClient.getOpportunity (remote : Except AxiosErr OpportunityBody) :
    Except String (ApiResult Payload) :=
  match remote with
  | .ok body => .ok (wrapResponse body.opportunity)
  | .error e => .error (handleApiError (plainErr (interceptReject e)))

/-- `GHLApiClient.getLocationTag` (part_002 lines 1683-1691): wraps
`response.data`; its `catch` throws `this.handleApiError(error)`. -/
def GHLApiClient.getLocationTag (locationId tagId : String)
    (remote : Except AxiosErr Payload) : Except String (ApiResult Payload) :=
  let _path := locationId ++ "/tags/" ++ tagId
  match remote with
  | .ok body => .ok (wrapResponse (some body))
  | .error e => .error (handleApiError (plainErr (interceptReject e)))

/-- Parameters of `searchLocations` (part_002 lines 1580-1595): the five
fields the query construction reads. -/
structure SearchLocationsReq where
  skip : Option Nat
  limit : Option Nat
  order : Option String
  companyId : Option String
  email : Option String
deriving DecidableEq

/-- A query-string value: JS number or string. -/
inductive QVal where
  | num (n : Nat)
  | str (s : String)
deriving DecidableEq

/-- Query parameters built by `GHLApiClient.searchLocations` (part_002
lines 1582-1588), in object-literal order: `skip: params.skip || 0`,
`limit: params.limit || 10`, `order: params.order || 'asc'`, then
`...(params.companyId && { companyId })` and
`...(params.email && { email })`. -/
def GHLApiClient.searchLocationsQuery (p : SearchLocationsReq) :
    List (String × QVal) :=
  [("skip", QVal.num (jsOrNat p.skip 0)),
   ("limit", QVal.num (jsOrNat p.limit 10)),
   ("order", QVal.str (jsOr p.order "asc"))] ++
  (match p.companyId with
   | some s => if s = "" then [] else [("companyId", QVal.str s)]
   | none => []) ++
  (match p.email with
   | some s => if s = "" then [] else [("email", QVal.str s)]
   | none => [])

/-- 2xx body of `GET /locations/search`; the tool layer reads
`response.data.locations || []`. -/
structure LocationsBody where
  locations : Option (List Payload)
deriving DecidableEq

/-- `GHLApiClient.searchLocations` (part_002 lines 1580-1595): wraps
`response.data`; its `catch` throws `this.handleApiError(error)` on the
already-normalized error (it does NOT return a `{success:false}`
result). -/
def GHLApiClient.searchLocations (p : SearchLocationsReq)
    (remote : Except AxiosErr LocationsBody) :
    Except String (ApiResult LocationsBody) :=
  let _queryParams := GHLApiClient.searchLocationsQuery p
  match remote with
  | .ok body => .ok (wrapResponse (some body))
  | .error e => .error (handleApiError (plainErr (interceptReject e)))

/-- Result shape of the `search_locations` tool
(`{success, locations, message}`). -/
structure LocationsToolResult where
  success : Bool
  locations : List Payload
  message : String
deriving DecidableEq

/-- `LocationTools.searchLocations` (part_000 lines 705-722): passes its
`params` argument unchanged to the client, throws
`API request failed: ...` (re-wrapped by the outer catch as
`Failed to search locations: ...`) when the response has
`success` false or missing `data`, else reshapes. -/
def LocationTools.searchLocations (params : SearchLocationsReq)
    (remote : Except AxiosErr LocationsBody) :
    Except String LocationsToolResult :=
  match GHLApiClient.searchLocations params remote with
  | .ok response =>
      if !response.success || !response.data.isSome then
        .error ("Failed to search locations: " ++ ("API request failed: " ++
          jsOr (response.error.map (fun err => err.message)) "Unknown API error"))
      else
        let locs := (response.data.bind (fun b => b.locations)).getD []
        .ok { success := true
            , locations := locs
            , message := "Found " ++ toString locs.length ++ " locations" }
  | .error e => .error ("Failed to search locations: " ++ e)

/-- Query used by the `search_locations` tool: `LocationTools.searchLocations`
forwards its argument object to the client unchanged (part_000 line 707),
so the tool invocation's underlying request query is the client's. -/
def LocationTools.searchLocationsQuery (args : SearchLocationsReq) :
    List (String × QVal) :=
  GHLApiClient.searchLocationsQuery args

/-- Arguments of the `upload_media_file` tool (media-tools.js schema). -/
structure UploadMediaArgs where
  file : Option String
  hosted : Option Bool
  fileUrl : Option String
  name : Option String
  parentId : Option String
  altType : Option String
  altId : Option String
deriving DecidableEq

/-- The `uploadData` object built by `MediaTools.uploadMediaFile`
(media-tools.js lines 200-208): defaults for `altType`/`altId`, the other
fields spread in only when defined/truthy. -/
structure UploadMediaReq where
  altType : String
  altId : String
  hosted : Option Bool
  fileUrl : Option String
  file : Option String
  name : Option String
  parentId : Option String
deriving DecidableEq

/-- Construction of `uploadData` (media-tools.js lines 200-208). -/
def mediaUploadData (cfg : ClientConfig) (p : UploadMediaArgs) : UploadMediaReq :=
  { altType := jsOr p.altType "location"
  , altId := jsOr p.altId (GHLApiClient.getConfig cfg).locationId
  , hosted := p.hosted
  , fileUrl := if optStrTruthy p.fileUrl then p.fileUrl else none
  , file := if optStrTruthy p.file then p.file else none
  , name := if optStrTruthy p.name then p.name else none
  , parentId := if optStrTruthy p.parentId then p.parentId else none }

/-- 2xx body of `POST /medias/upload-file`; the tool reads
`response.data.fileId` and `response.data.url`. -/
structure UploadBody where
  fileId : Option String
  url : Option String
deriving DecidableEq

/-- `GHLApiClient.uploadMediaFile` (part_002 lines 2730-2762): picks the
hosted-URL form when `hosted && fileUrl`, else the direct-file form when
`file` is truthy, else throws (the throw is inside the `try`, so the
method's own `catch` re-wraps it through `handleApiError`). -/
def GHLApiClient.uploadMediaFile (u : UploadMediaReq)
    (remote : Except AxiosErr UploadBody) :
    Except String (ApiResult UploadBody) :=
  if boolTruthy u.hosted && optStrTruthy u.fileUrl then
    match remote with
    | .ok body => .ok (wrapResponse (some body))
    | .error e => .error (handleApiError (plainErr (interceptReject e)))
  else if optStrTruthy u.file then
    match remote with
    | .ok body => .ok (wrapResponse (some body))
    | .error e => .error (handleApiError (plainErr (interceptReject e)))
  else
    .error (handleApiError
      (plainErr "Either file or fileUrl (with hosted=true) must be provided"))

/-- JS string interpolation of a possibly-undefined value. -/
def jsShow : Option String → String
  | some s => s
  | none => "undefined"

/-- Result shape of the `upload_media_file` tool. -/
structure UploadToolResult where
  success : Bool
  fileId : Option String
  url : Option String
  message : String
deriving DecidableEq

/-- `MediaTools.uploadMediaFile` (media-tools.js lines 191-224).  The two
validation checks run before `this.ghlClient.uploadMediaFile` is called;
errors thrown inside the `try` are re-wrapped by the `catch` with the
`Failed to upload media file: ` prefix.  The second component records
whether the API client method was invoked. -/
def MediaTools.uploadMediaFile (cfg : ClientConfig) (p : UploadMediaArgs)
    (remote : Except AxiosErr UploadBody) :
    Except String UploadToolResult × Bool :=
  if boolTruthy p.hosted && !optStrTruthy p.fileUrl then
    (.error ("Failed to upload media file: " ++
      "fileUrl is required when hosted=true"), false)
  else if !boolTruthy p.hosted && !optStrTruthy p.file then
    (.error ("Failed to upload media file: " ++
      "file is required when hosted=false or not specified"), false)
  else
    match GHLApiClient.uploadMediaFile (mediaUploadData cfg p) remote with
    | .ok response =>
        if !response.success || !response.data.isSome then
          (.error ("Failed to upload media file: " ++ ("API request failed: " ++
            jsOr (response.error.map (fun err => err.message))
              "Unknown API error")), true)
        else
          (.ok { success := true
               , fileId := response.data.bind (fun b => b.fileId)
               , url := response.data.bind (fun b => b.url)
               , message := "File uploaded successfully with ID: " ++
                   jsShow (response.data.bind (fun b => b.fileId)) }, true)
    | .error e => (.error ("Failed to upload media file: " ++ e), true)

/-- Result shape of the `get_opportunity` tool. -/
structure OpportunityToolResult where
  success : Bool
  opportunity : Option Payload
  message : String
deriving DecidableEq

/-- `OpportunityTools.getOpportunity` (opportunity-tools.js lines
376-392), the handler of the `get_opportunity` dispatch case: throws
`API request failed: ...` on a failed response (re-wrapped by the outer
catch), and prefixes every caught error with
`Failed to get opportunity: `. -/
def OpportunityTools.getOpportunity (remote : Except AxiosErr OpportunityBody) :
    Except String OpportunityToolResult :=
  match GHLApiClient.getOpportunity remote with
  | .ok response =>
      if !response.success || !response.data.isSome then
        .error ("Failed to get opportunity: " ++ ("API request failed: " ++
          jsOr (response.error.map (fun err => err.message)) "Unknown API error"))
      else
        .ok { success := true
            , opportunity := response.data
            , message := "Opportunity retrieved successfully" }
  | .error e => .error ("Failed to get opportunity: " ++ e)

/-- Tool names declared by `LocationTools.getToolDefinitions` (unnamed/part_000), in catalog order. -/
def LocationTools.toolNames : List String :=
  ["search_locations",
   "get_location",
   "create_location",
   "update_location",
   "delete_location",
   "get_location_tags",
   "create_location_tag",
   "get_location_tag",
   "update_location_tag",
   "delete_location_tag",
   "search_location_tasks",
   "get_location_custom_fields",
   "create_location_custom_field",
   "get_location_custom_field",
   "update_location_custom_field",
   "delete_location_custom_field",
   "get_location_custom_values",
   "create_location_custom_value",
   "get_location_custom_value",
   "update_location_custom_value",
   "delete_location_custom_value",
   "get_location_templates",
   "delete_location_template",
   "get_timezones"]

/-- The `switch` of `LocationTools.executeTool` (unnamed/part_000) as an association
list: each `case` maps the tool name to the handler method it invokes. -/
def LocationTools.dispatchTable : List (String × String) :=
  [("search_locations", "searchLocations"),
   ("get_location", "getLocation"),
   ("create_location", "createLocation"),
   ("update_location", "updateLocation"),
   ("delete_location", "deleteLocation"),
   ("get_location_tags", "getLocationTags"),
   ("create_location_tag", "createLocationTag"),
   ("get_location_tag", "getLocationTag"),
   ("update_location_tag", "updateLocationTag"),
   ("delete_location_tag", "deleteLocationTag"),
   ("search_location_tasks", "searchLocationTasks"),
   ("get_location_custom_fields", "getLocationCustomFields"),
   ("create_location_custom_field", "createLocationCustomField"),
   ("get_location_custom_field", "getLocationCustomField"),
   ("update_location_custom_field", "updateLocationCustomField"),
   ("delete_location_custom_field", "deleteLocationCustomField"),
   ("get_location_custom_values", "getLocationCustomValues"),
   ("create_location_custom_value", "createLocationCustomValue"),
   ("get_location_custom_value", "getLocationCustomValue"),
   ("update_location_custom_value", "updateLocationCustomValue"),
   ("delete_location_custom_value", "deleteLocationCustomValue"),
   ("get_location_templates", "getLocationTemplates"),
   ("delete_location_template", "deleteLocationTemplate"),
   ("get_timezones", "getTimezones")]

/-- `LocationTools.executeTool` dispatch (unnamed/part_000): exact string match
selects the handler; the `default` branch throws
`Unknown location tool: <name>` before any handler (and hence any API client
method) runs. -/
def LocationTools.executeTool (name : String) : Except String String :=
  match LocationTools.dispatchTable.lookup name with
  | some handler => Except.ok handler
  | none => Except.error ("Unknown location tool: " ++ name)

/-- Tool names declared by `ConversationTools.getToolDefinitions` (unnamed/part_001), in catalog order. -/
def ConversationTools.toolNames : List String :=
  ["send_sms",
   "send_email",
   "search_conversations",
   "get_conversation",
   "create_conversation",
   "update_conversation",
   "get_recent_messages",
   "delete_conversation",
   "get_email_message",
   "get_message",
   "upload_message_attachments",
   "update_message_status",
   "add_inbound_message",
   "add_outbound_call",
   "get_message_recording",
   "get_message_transcription",
   "download_transcription",
   "cancel_scheduled_message",
   "cancel_scheduled_email",
   "live_chat_typing"]

/-- The `switch` of `ConversationTools.executeTool` (unnamed/part_001) as an association
list: each `case` maps the tool name to the handler method it invokes. -/
def ConversationTools.dispatchTable : List (String × String) :=
  [("send_sms", "sendSMS"),
   ("send_email", "sendEmail"),
   ("search_conversations", "searchConversations"),
   ("get_conversation", "getConversation"),
   ("create_conversation", "createConversation"),
   ("update_conversation", "updateConversation"),
   ("get_recent_messages", "getRecentMessages"),
   ("delete_conversation", "deleteConversation"),
   ("get_email_message", "getEmailMessage"),
   ("get_message", "getMessage"),
   ("upload_message_attachments", "uploadMessageAttachments"),
   ("update_message_status", "updateMessageStatus"),
   ("add_inbound_message", "addInboundMessage"),
   ("add_outbound_call", "addOutboundCall"),
   ("get_message_recording", "getMessageRecording"),
   ("get_message_transcription", "getMessageTranscription"),
   ("download_transcription", "downloadTranscription"),
   ("cancel_scheduled_message", "cancelScheduledMessage"),
   ("cancel_scheduled_email", "cancelScheduledEmail"),
   ("live_chat_typing", "liveChatTyping")]

/-- `ConversationTools.executeTool` dispatch (unnamed/part_001): exact string match
selects the handler; the `default` branch throws
`Unknown tool: <name>` before any handler (and hence any API client
method) runs. -/
def ConversationTools.executeTool (name : String) : Except String String :=
  match ConversationTools.dispatchTable.lookup name with
  | some handler => Except.ok handler
  | none => Except.error ("Unknown tool: " ++ name)

/-- Tool names declared by `EmailISVTools.getToolDefinitions` (unnamed/part_002), in catalog order. -/
def EmailISVTools.toolNames : List String :=
  ["verify_email"]

/-- The `switch` of `EmailISVTools.executeTool` (unnamed/part_002) as an association
list: each `case` maps the tool name to the handler method it invokes. -/
def EmailISVTools.dispatchTable : List (String × String) :=
  [("verify_email", "verifyEmail")]

/-- `EmailISVTools.executeTool` dispatch (unnamed/part_002): exact string match
selects the handler; the `default` branch throws
`Unknown email ISV tool: <name>` before any handler (and hence any API client
method) runs. -/
def EmailISVTools.executeTool (name : String) : Except String String :=
  match EmailISVTools.dispatchTable.lookup name with
  | some handler => Except.ok handler
  | none => Except.error ("Unknown email ISV tool: " ++ name)

/-- Tool names declared by `ContactTools.getToolDefinitions` (dist/tools/contact-tools.js), in catalog order. -/
def ContactTools.toolNames : List String :=
  ["create_contact",
   "search_contacts",
   "get_contact",
   "update_contact",
   "delete_contact",
   "add_contact_tags",
   "remove_contact_tags",
   "get_contact_tasks",
   "create_contact_task",
   "get_contact_task",
   "update_contact_task",
   "delete_contact_task",
   "update_task_completion",
   "get_contact_notes",
   "create_contact_note",
   "get_contact_note",
   "update_contact_note",
   "delete_contact_note",
   "upsert_contact",
   "get_duplicate_contact",
   "get_contacts_by_business",
   "get_contact_appointments",
   "bulk_update_contact_tags",
   "bulk_update_contact_business",
   "add_contact_followers",
   "remove_contact_followers",
   "add_contact_to_campaign",
   "remove_contact_from_campaign",
   "remove_contact_from_all_campaigns",
   "add_contact_to_workflow",
   "remove_contact_from_workflow"]

/-- The `switch` of `ContactTools.executeTool` (dist/tools/contact-tools.js) as an association
list: each `case` maps the tool name to the handler method it invokes. -/
def ContactTools.dispatchTable : List (String × String) :=
  [("create_contact", "createContact"),
   ("search_contacts", "searchContacts"),
   ("get_contact", "getContact"),
   ("update_contact", "updateContact"),
   ("delete_contact", "deleteContact"),
   ("add_contact_tags", "addContactTags"),
   ("remove_contact_tags", "removeContactTags"),
   ("get_contact_tasks", "getContactTasks"),
   ("create_contact_task", "createContactTask"),
   ("get_contact_task", "getContactTask"),
   ("update_contact_task", "updateContactTask"),
   ("delete_contact_task", "deleteContactTask"),
   ("update_task_completion", "updateTaskCompletion"),
   ("get_contact_notes", "getContactNotes"),
   ("create_contact_note", "createContactNote"),
   ("get_contact_note", "getContactNote"),
   ("update_contact_note", "updateContactNote"),
   ("delete_contact_note", "deleteContactNote"),
   ("upsert_contact", "upsertContact"),
   ("get_duplicate_contact", "getDuplicateContact"),
   ("get_contacts_by_business", "getContactsByBusiness"),
   ("get_contact_appointments", "getContactAppointments"),
   ("bulk_update_contact_tags", "bulkUpdateContactTags"),
   ("bulk_update_contact_business", "bulkUpdateContactBusiness"),
   ("add_contact_followers", "addContactFollowers"),
   ("remove_contact_followers", "removeContactFollowers"),
   ("add_contact_to_campaign", "addContactToCampaign"),
   ("remove_contact_from_campaign", "removeContactFromCampaign"),
   ("remove_contact_from_all_campaigns", "removeContactFromAllCampaigns"),
   ("add_contact_to_workflow", "addContactToWorkflow"),
   ("remove_contact_from_workflow", "removeContactFromWorkflow")]

/-- `ContactTools.executeTool` dispatch (dist/tools/contact-tools.js): exact string match
selects the handler; the `default` branch throws
`Unknown tool: <name>` before any handler (and hence any API client
method) runs. -/
def ContactTools.executeTool (name : String) : Except String String :=
  match ContactTools.dispatchTable.lookup name with
  | some handler => Except.ok handler
  | none => Except.error ("Unknown tool: " ++ name)

/-- Tool names declared by `EmailTools.getToolDefinitions` (dist/tools/email-tools.js), in catalog order. -/
def EmailTools.toolNames : List String :=
  ["get_email_campaigns",
   "create_email_template",
   "get_email_templates",
   "update_email_template",
   "delete_email_template"]

/-- The `switch` of `EmailTools.executeTool` (dist/tools/email-tools.js) as an association
list: each `case` maps the tool name to the handler method it invokes. -/
def EmailTools.dispatchTable : List (String × String) :=
  [("get_email_campaigns", "getEmailCampaigns"),
   ("create_email_template", "createEmailTemplate"),
   ("get_email_templates", "getEmailTemplates"),
   ("update_email_template", "updateEmailTemplate"),
   ("delete_email_template", "deleteEmailTemplate")]

/-- `EmailTools.executeTool` dispatch (dist/tools/email-tools.js): exact string match
selects the handler; the `default` branch throws
`Unknown email tool: <name>` before any handler (and hence any API client
method) runs. -/
def EmailTools.executeTool (name : String) : Except String String :=
  match EmailTools.dispatchTable.lookup name with
  | some handler => Except.ok handler
  | none => Except.error ("Unknown email tool: " ++ name)

/-- Tool names declared by `MediaTools.getToolDefinitions` (dist/tools/media-tools.js), in catalog order. -/
def MediaTools.toolNames : List String :=
  ["get_media_files",
   "upload_media_file",
   "delete_media_file"]

/-- The `switch` of `MediaTools.executeTool` (dist/tools/media-tools.js) as an association
list: each `case` maps the tool name to the handler method it invokes. -/
def MediaTools.dispatchTable : List (String × String) :=
  [("get_media_files", "getMediaFiles"),
   ("upload_media_file", "uploadMediaFile"),
   ("delete_media_file", "deleteMediaFile")]

/-- `MediaTools.executeTool` dispatch (dist/tools/media-tools.js): exact string match
selects the handler; the `default` branch throws
`Unknown media tool: <name>` before any handler (and hence any API client
method) runs. -/
def MediaTools.executeTool (name : String) : Except String String :=
  match MediaTools.dispatchTable.lookup name with
  | some handler => Except.ok handler
  | none => Except.error ("Unknown media tool: " ++ name)

/-- Tool names declared by `OpportunityTools.getToolDefinitions` (dist/tools/opportunity-tools.js), in catalog order. -/
def OpportunityTools.toolNames : List String :=
  ["search_opportunities",
   "get_pipelines",
   "get_opportunity",
   "create_opportunity",
   "update_opportunity_status",
   "delete_opportunity",
   "update_opportunity",
   "upsert_opportunity",
   "add_opportunity_followers",
   "remove_opportunity_followers"]

/-- The `switch` of `OpportunityTools.executeTool` (dist/tools/opportunity-tools.js) as an association
list: each `case` maps the tool name to the handler method it invokes. -/
def OpportunityTools.dispatchTable : List (String × String) :=
  [("search_opportunities", "searchOpportunities"),
   ("get_pipelines", "getPipelines"),
   ("get_opportunity", "getOpportunity"),
   ("create_opportunity", "createOpportunity"),
   ("update_opportunity_status", "updateOpportunityStatus"),
   ("delete_opportunity", "deleteOpportunity"),
   ("update_opportunity", "updateOpportunity"),
   ("upsert_opportunity", "upsertOpportunity"),
   ("add_opportunity_followers", "addOpportunityFollowers"),
   ("remove_opportunity_followers", "removeOpportunityFollowers")]

/-- `OpportunityTools.executeTool` dispatch (dist/tools/opportunity-tools.js): exact string match
selects the handler; the `default` branch throws
`Unknown opportunity tool: <name>` before any handler (and hence any API client
method) runs. -/
def OpportunityTools.executeTool (name : String) : Except String String :=
  match OpportunityTools.dispatchTable.lookup name with
  | some handler => Except.ok handler
  | none => Except.error ("Unknown opportunity tool: " ++ name)

/-- Tool names declared by `WorkflowTools.getToolDefinitions` (dist/tools/workflow-tools.js), in catalog order. -/
def WorkflowTools.toolNames : List String :=
  ["ghl_get_workflows"]

/-- The `switch` of `WorkflowTools.executeTool` (dist/tools/workflow-tools.js) as an association
list: each `case` maps the tool name to the handler method it invokes. -/
def WorkflowTools.dispatchTable : List (String × String) :=
  [("ghl_get_workflows", "getWorkflows")]

/-- `WorkflowTools.executeTool` dispatch (dist/tools/workflow-tools.js): exact string match
selects the handler; the `default` branch throws
`Unknown workflow tool: <name>` before any handler (and hence any API client
method) runs. -/
def WorkflowTools.executeTool (name : String) : Except String String :=
  match WorkflowTools.dispatchTable.lookup name with
  | some handler => Except.ok handler
  | none => Except.error ("Unknown workflow tool: " ++ name)

/-- One constructor per method of the `GHLApiClient` class (part_002
lines 124-5191), in source order.  `updateAccessToken` carries its new
token; every other method takes no argument relevant to the config. -/
inductive ClientOp where
  | updateAccessToken (newToken : String)
  | handleApiError
  | wrapResponse
  | getConversationHeaders
  | createContact
  | getContact
  | updateContact
  | deleteContact
  | searchContacts
  | getDuplicateContact
  | addContactTags
  | removeContactTags
  | searchConversations
  | getConversation
  | createConversation
  | updateConversation
  | deleteConversation
  | getConversationMessages
  | getMessage
  | sendMessage
  | sendSMS
  | sendEmail
  | getBlogSites
  | getBlogPosts
  | createBlogPost
  | updateBlogPost
  | getBlogAuthors
  | getBlogCategories
  | checkUrlSlugExists
  | getContactTasks
  | createContactTask
  | getContactNotes
  | createContactNote
  | getContactTask
  | updateContactTask
  | deleteContactTask
  | updateTaskCompletion
  | getContactNote
  | updateContactNote
  | deleteContactNote
  | upsertContact
  | getContactsByBusiness
  | getContactAppointments
  | bulkUpdateContactTags
  | bulkUpdateContactBusiness
  | addContactFollowers
  | removeContactFollowers
  | addContactToCampaign
  | removeContactFromCampaign
  | removeContactFromAllCampaigns
  | addContactToWorkflow
  | removeContactFromWorkflow
  | testConnection
  | getConfig
  | searchOpportunities
  | getPipelines
  | getOpportunity
  | createOpportunity
  | updateOpportunity
  | updateOpportunityStatus
  | upsertOpportunity
  | deleteOpportunity
  | addOpportunityFollowers
  | removeOpportunityFollowers
  | getCalendarGroups
  | createCalendarGroup
  | getCalendars
  | createCalendar
  | getCalendar
  | updateCalendar
  | deleteCalendar
  | getCalendarEvents
  | getBlockedSlots
  | getFreeSlots
  | createAppointment
  | getAppointment
  | updateAppointment
  | deleteAppointment
  | updateBlockSlot
  | getEmailCampaigns
  | createEmailTemplate
  | getEmailTemplates
  | updateEmailTemplate
  | deleteEmailTemplate
  | searchLocations
  | getLocationById
  | createLocation
  | updateLocation
  | deleteLocation
  | getLocationTags
  | createLocationTag
  | getLocationTag
  | updateLocationTag
  | deleteLocationTag
  | searchLocationTasks
  | getLocationCustomFields
  | createLocationCustomField
  | getLocationCustomField
  | updateLocationCustomField
  | deleteLocationCustomField
  | uploadLocationCustomFieldFile
  | getLocationCustomValues
  | createLocationCustomValue
  | getLocationCustomValue
  | updateLocationCustomValue
  | deleteLocationCustomValue
  | getLocationTemplates
  | deleteLocationTemplate
  | getTimezones
  | verifyEmail
  | getEmailMessage
  | cancelScheduledEmail
  | addInboundMessage
  | addOutboundCall
  | cancelScheduledMessage
  | uploadMessageAttachments
  | updateMessageStatus
  | getMessageRecording
  | getMessageTranscription
  | downloadMessageTranscription
  | liveChatTyping
  | searchSocialPosts
  | createSocialPost
  | getSocialPost
  | updateSocialPost
  | deleteSocialPost
  | bulkDeleteSocialPosts
  | getSocialAccounts
  | deleteSocialAccount
  | uploadSocialCSV
  | getSocialCSVUploadStatus
  | setSocialCSVAccounts
  | getSocialCSVPosts
  | finalizeSocialCSV
  | deleteSocialCSV
  | deleteSocialCSVPost
  | getSocialCategories
  | getSocialCategory
  | getSocialTags
  | getSocialTagsByIds
  | startSocialOAuth
  | getGoogleBusinessLocations
  | setGoogleBusinessLocations
  | getFacebookPages
  | attachFacebookPages
  | getInstagramAccounts
  | attachInstagramAccounts
  | getLinkedInAccounts
  | attachLinkedInAccounts
  | getTwitterProfile
  | attachTwitterProfile
  | getTikTokProfile
  | attachTikTokProfile
  | getTikTokBusinessProfile
  | validateCalendarGroupSlug
  | updateCalendarGroup
  | deleteCalendarGroup
  | disableCalendarGroup
  | getAppointmentNotes
  | createAppointmentNote
  | updateAppointmentNote
  | deleteAppointmentNote
  | getCalendarResources
  | createCalendarResource
  | getCalendarResource
  | updateCalendarResource
  | deleteCalendarResource
  | getCalendarNotifications
  | createCalendarNotifications
  | getCalendarNotification
  | updateCalendarNotification
  | deleteCalendarNotification
  | getBlockedSlotsByLocation
  | createBlockSlot
  | getMediaFiles
  | uploadMediaFile
  | deleteMediaFile
  | getObjectsByLocation
  | createObjectSchema
  | getObjectSchema
  | updateObjectSchema
  | createObjectRecord
  | getObjectRecord
  | updateObjectRecord
  | deleteObjectRecord
  | searchObjectRecords
  | getAssociations
  | createAssociation
  | getAssociationById
  | updateAssociation
  | deleteAssociation
  | getAssociationByKey
  | getAssociationByObjectKey
  | createRelation
  | getRelationsByRecord
  | deleteRelation
  | getCustomFieldV2ById
  | createCustomFieldV2
  | updateCustomFieldV2
  | deleteCustomFieldV2
  | getCustomFieldsV2ByObjectKey
  | createCustomFieldV2Folder
  | updateCustomFieldV2Folder
  | deleteCustomFieldV2Folder
  | getWorkflows
  | getSurveys
  | getSurveySubmissions
  | createShippingZone
  | listShippingZones
  | getShippingZone
  | updateShippingZone
  | deleteShippingZone
  | getAvailableShippingRates
  | createShippingRate
  | listShippingRates
  | getShippingRate
  | updateShippingRate
  | deleteShippingRate
  | createShippingCarrier
  | listShippingCarriers
  | getShippingCarrier
  | updateShippingCarrier
  | deleteShippingCarrier
  | createStoreSetting
  | getStoreSetting
  | createProduct
  | updateProduct
  | getProduct
  | listProducts
  | deleteProduct
  | bulkUpdateProducts
  | createPrice
  | updatePrice
  | getPrice
  | listPrices
  | deletePrice
  | listInventory
  | updateInventory
  | getProductStoreStats
  | updateProductStore
  | createProductCollection
  | updateProductCollection
  | getProductCollection
  | listProductCollections
  | deleteProductCollection
  | listProductReviews
  | getReviewsCount
  | updateProductReview
  | deleteProductReview
  | bulkUpdateProductReviews
  | createWhiteLabelIntegrationProvider
  | listWhiteLabelIntegrationProviders
  | listOrders
  | getOrderById
  | createOrderFulfillment
  | listOrderFulfillments
  | listTransactions
  | getTransactionById
  | listSubscriptions
  | getSubscriptionById
  | listCoupons
  | createCoupon
  | updateCoupon
  | deleteCoupon
  | getCoupon
  | createCustomProviderIntegration
  | deleteCustomProviderIntegration
  | getCustomProviderConfig
  | createCustomProviderConfig
  | disconnectCustomProviderConfig
  | createInvoiceTemplate
  | listInvoiceTemplates
  | getInvoiceTemplate
  | updateInvoiceTemplate
  | deleteInvoiceTemplate
  | updateInvoiceTemplateLateFeesConfiguration
  | updateInvoiceTemplatePaymentMethodsConfiguration
  | createInvoiceSchedule
  | listInvoiceSchedules
  | getInvoiceSchedule
  | updateInvoiceSchedule
  | deleteInvoiceSchedule
  | updateAndScheduleInvoiceSchedule
  | scheduleInvoiceSchedule
  | autoPaymentInvoiceSchedule
  | cancelInvoiceSchedule
  | text2PayInvoice
  | generateInvoiceNumber
  | getInvoice
  | updateInvoice
  | deleteInvoice
  | updateInvoiceLateFeesConfiguration
  | voidInvoice
  | sendInvoice
  | recordInvoicePayment
  | updateInvoiceLastVisitedAt
  | createEstimate
  | updateEstimate
  | deleteEstimate
  | generateEstimateNumber
  | sendEstimate
  | createInvoiceFromEstimate
  | listEstimates
  | updateEstimateLastVisitedAt
  | listEstimateTemplates
  | createEstimateTemplate
  | updateEstimateTemplate
  | deleteEstimateTemplate
  | previewEstimateTemplate
  | createInvoice
  | listInvoices

/-- Whether a client operation is the explicit token update. -/
def ClientOp.isTokenUpdate : ClientOp → Bool
  | ClientOp.updateAccessToken _ => true
  | _ => false

/-- Effect of each `GHLApiClient` method on `this.config`.  The only
assignment to `this.config` in the whole class body is
`this.config.accessToken = newToken` inside `updateAccessToken`
(part_002 line 1033); no other method body writes any config field, so
every other operation leaves the config unchanged. -/
def configAfter : ClientOp → ClientConfig → ClientConfig
  | ClientOp.updateAccessToken t, cfg => { cfg with accessToken := t }
  | _, cfg => cfg

/-! ## Shared lemmas and concrete fixtures -/

/-- A concrete client configuration used as a fixture. -/
def cfg0 : ClientConfig :=
  { baseUrl := "https://services.leadconnectorhq.com"
  , accessToken := "token-abc"
  , version := "2021-07-28"
  , locationId := "locDefault" }

/-- A concrete remote 404 rejection with a string `message` body field. -/
def ax404 : AxiosErr :=
  { response := some
      { status := 404
      , data := some { message := some (MsgField.str "Not found") } }
  , message := some "Request failed with status code 404" }

/-- A concrete remote 422 rejection with an array-valued `message`. -/
def ax422 : AxiosErr :=
  { response := some
      { status := 422
      , data := some { message := some (MsgField.arr
          ["email must be valid", "name is required"]) } }
  , message := some "Request failed with status code 422" }

/-- A concrete transport failure: no HTTP response at all. -/
def transportErr : AxiosErr :=
  { response := none, message := some "timeout of 30000ms exceeded" }

/-- `search_locations` arguments that omit limit, skip and order but
supply a company filter. -/
def searchLocArgsA : SearchLocationsReq :=
  { skip := none, limit := none, order := none
  , companyId := some "comp1", email := none }

/-- Concrete `upload_media_file` arguments with no file and no hosted
URL. -/
def uploadArgs0 : UploadMediaArgs :=
  { file := none, hosted := none, fileUrl := none
  , name := none, parentId := none, altType := none, altId := none }

/-- Whether a dispatch outcome selected a handler (vs the unknown-tool
throw). -/
def isHandled : Except String String → Bool
  | .ok _ => true
  | .error _ => false

theorem lookupNoneOfNotMemKeys {β : Type} (n : String) :
    ∀ l : List (String × β), n ∉ l.map Prod.fst → l.lookup n = none := by
  intro l
  induction l with
  | nil => intro _; rfl
  | cons kv tail ih =>
      intro h
      obtain ⟨k, v⟩ := kv
      simp only [List.map_cons, List.mem_cons, not_or] at h
      have hne : (n == k) = false := by simpa using h.1
      simp [List.lookup, hne, ih h.2]

theorem handleApiErrorNeEmpty (e : AxiosErr) : handleApiError e ≠ "" := by
  intro h
  have hlen := congrArg String.length h
  simp [handleApiError, String.length_append] at hlen
  exact absurd hlen.1.1.1 (by decide)

theorem doubleWrapEq (x : String) (hx : x ≠ "") :
    handleApiError (plainErr x) = "GHL API Error (500): " ++ x := by
  have : handleApiError (plainErr x) =
      "GHL API Error (" ++ toString (500 : Nat) ++ "): " ++ x := by
    simp [handleApiError, plainErr, apiErrStatus, apiErrMessageField,
      joinMsgField, hx]
  rw [this]
  congr 1

/-! ## C2: central error normalization format -/

/-- Claim C2, counterexample: at a concrete 404 with body message
"Not found", the centrally produced error message is
`GHL API Error (404): Not found`, not of the claimed literal form
`Platform API Error (<status>): <message>`. -/
theorem c2_counterexample :
    handleApiError ax404 = "GHL API Error (404): Not found" ∧
    handleApiError ax404 ≠ "Platform API Error (404): Not found" := by
  constructor <;> decide

/-- Claim C2 (amended): for every non-2xx remote response carrying a
truthy body `message` field, the central handler produces a single error
whose message is `GHL API Error (<status>): <message>`, where `<status>`
is the response's HTTP status and `<message>` is the body's message
field, its elements joined with ", " when it is an array. -/
theorem c2_amended :
    ∀ (e : AxiosErr) (r : HttpResponse) (d : ErrData) (m : MsgField),
      e.response = some r → r.status ≠ 0 → r.data = some d →
      d.message = some m → msgFieldTruthy m = true →
      handleApiError e =
        "GHL API Error (" ++ toString r.status ++ "): " ++ joinMsgField m := by
  intro e r d m h1 h2 h3 h4 h5
  simp [handleApiError, apiErrStatus, apiErrMessageField, h1, h2, h3, h4, h5]

/-- Witness for C2 (amended), at the concrete 422 rejection whose body
message is an array: the elements are joined with ", ". -/
theorem c2_witness :
    handleApiError ax422 = "GHL API Error (422): email must be valid, name is required" := by
  have h := c2_amended ax422
    { status := 422
    , data := some { message := some (MsgField.arr
        ["email must be valid", "name is required"]) } }
    { message := some (MsgField.arr ["email must be valid", "name is required"]) }
    (MsgField.arr ["email must be valid", "name is required"])
    rfl (by decide) rfl rfl rfl
  exact h.trans (by decide)

/-! ## C4: transport/network failures -/

/-- Claim C4, counterexample: a transport failure (no HTTP response) is
NOT converted to an error without a status code; the central handler
substitutes the fallback status 500, and the produced message carries
`(500)`. -/
theorem c4_counterexample :
    apiErrStatus transportErr = 500 ∧
    handleApiError transportErr =
      "GHL API Error (500): timeout of 30000ms exceeded" := by
  constructor <;> decide

/-- Claim C4 (amended): every transport failure (an error with no HTTP
response) is converted by the central handler into the same normalized
error form with the fallback status 500, its message being the transport
error text (or "Unknown error" when that text is absent or empty). -/
theorem c4_amended :
    ∀ e : AxiosErr, e.response = none →
      apiErrStatus e = 500 ∧
      handleApiError e = "GHL API Error (500): " ++ jsOr e.message "Unknown error" := by
  intro e h
  constructor
  · simp [apiErrStatus, h]
  · have harg : apiErrMessageField e =
        MsgField.str (jsOr e.message "Unknown error") := by
      simp only [apiErrMessageField, h, Option.bind]
      cases hm : e.message with
      | none => simp [jsOr]
      | some s =>
          by_cases hs : s = "" <;> simp [jsOr, hs]
    have h500 : handleApiError e =
        "GHL API Error (" ++ toString (500 : Nat) ++ "): " ++
          jsOr e.message "Unknown error" := by
      simp [handleApiError, apiErrStatus, h, harg, joinMsgField]
    rw [h500]
    congr 1

/-- Witness for C4 (amended), at the concrete timeout transport error. -/
theorem c4_witness :
    apiErrStatus transportErr = 500 ∧
    handleApiError transportErr =
      "GHL API Error (500): " ++ jsOr transportErr.message "Unknown error" :=
  c4_amended transportErr rfl

/-! ## C3: which search methods soft-fail -/

/-- Claim C3, counterexample: `searchOpportunities` does NOT return a
`{success:false, error}` result on an HTTP-layer failure — at a concrete
remote 404 it throws (the interceptor-normalized error re-wrapped by its
own catch through `handleApiError`). -/
theorem c3_counterexample :
    GHLApiClient.searchOpportunities cfg0 { location_id := none }
        (Except.error ax404) =
      Except.error "GHL API Error (500): GHL API Error (404): Not found" := by
  rfl

/-- Claim C3 (amended): of the search-variant client methods only
`searchContacts` catches the HTTP-layer failure and returns a
`{success:false, error:{message, statusCode, details}}` result;
`searchConversations` rethrows the interceptor error unchanged, and
`searchOpportunities` and `searchLocations` throw it re-wrapped through
`handleApiError`. -/
theorem c3_amended :
    (∀ (cfg : ClientConfig) (p : SearchContactsReq) (e : AxiosErr),
       GHLApiClient.searchContacts cfg p (Except.error e) =
         Except.ok
           { success := false
           , data := none
           , error := some
               { message := handleApiError (plainErr (interceptReject e))
               , statusCode := 500
               , details := none } }) ∧
    (∀ (cfg : ClientConfig) (p : SearchConversationsReq) (e : AxiosErr),
       GHLApiClient.searchConversations cfg p (Except.error e) =
         Except.error (interceptReject e)) ∧
    (∀ (cfg : ClientConfig) (p : SearchOpportunitiesReq) (e : AxiosErr),
       GHLApiClient.searchOpportunities cfg p (Except.error e) =
         Except.error (handleApiError (plainErr (interceptReject e)))) ∧
    (∀ (p : SearchLocationsReq) (e : AxiosErr),
       GHLApiClient.searchLocations p (Except.error e) =
         Except.error (handleApiError (plainErr (interceptReject e)))) :=
  ⟨fun _ _ _ => rfl, fun _ _ _ => rfl, fun _ _ _ => rfl, fun _ _ => rfl⟩

/-! ## C6: search_locations default query parameters -/

/-- Claim C6, counterexample: an invocation of the `search_locations`
tool whose arguments omit `limit`, `skip` and `order` (but carry
`companyId`) produces query parameters that are NOT exactly
`limit=10, skip=0, order=asc`: `companyId` is included as well. -/
theorem c6_counterexample :
    LocationTools.searchLocationsQuery searchLocArgsA =
      [("skip", QVal.num 0), ("limit", QVal.num 10), ("order", QVal.str "asc"),
       ("companyId", QVal.str "comp1")] ∧
    LocationTools.searchLocationsQuery searchLocArgsA ≠
      [("skip", QVal.num 0), ("limit", QVal.num 10), ("order", QVal.str "asc")] := by
  constructor <;> decide

/-- Claim C6 (amended): for every `search_locations` invocation whose
arguments omit `limit`, `skip` and `order` and also supply neither
`companyId` nor `email`, the underlying request's query parameters are
exactly `skip=0, limit=10, order=asc`; supplied `companyId`/`email`
values are passed through in addition. -/
theorem c6_amended :
    ∀ p : SearchLocationsReq,
      p.skip = none → p.limit = none → p.order = none →
      p.companyId = none → p.email = none →
      LocationTools.searchLocationsQuery p =
        [("skip", QVal.num 0), ("limit", QVal.num 10),
         ("order", QVal.str "asc")] := by
  intro p h1 h2 h3 h4 h5
  simp [LocationTools.searchLocationsQuery, GHLApiClient.searchLocationsQuery,
    h1, h2, h3, h4, h5, jsOr, jsOrNat]

/-- Witness for C6 (amended): the all-defaults invocation. -/
theorem c6_witness :
    LocationTools.searchLocationsQuery
        { skip := none, limit := none, order := none
        , companyId := none, email := none } =
      [("skip", QVal.num 0), ("limit", QVal.num 10), ("order", QVal.str "asc")] :=
  c6_amended _ rfl rfl rfl rfl rfl

/-! ## C8: default locationId merging -/

/-- Claim C8, counterexample: a caller-supplied locationId is not always
used unchanged — supplying the (falsy) empty string makes `createContact`
substitute the configured default, because the merge uses JS `||`. -/
theorem c8_counterexample :
    createContactLocationId cfg0 { locationId := some "" } = cfg0.locationId ∧
    createContactLocationId cfg0 { locationId := some "" } ≠ "" := by
  constructor <;> decide

/-- Claim C8 (amended): for each location-scoped client method
(`createContact`, `searchContacts`, `getPipelines`,
`searchOpportunities`), an omitted location identifier is replaced by the
configured default, and a supplied non-empty identifier is used
unchanged; a supplied empty string is treated as omitted (JS falsy
check). -/
theorem c8_amended :
    ∀ cfg : ClientConfig,
      (∀ c : CreateContactReq,
        (c.locationId = none → createContactLocationId cfg c = cfg.locationId) ∧
        (∀ s, c.locationId = some s → s ≠ "" →
          createContactLocationId cfg c = s)) ∧
      (∀ p : SearchContactsReq,
        (p.locationId = none → searchContactsLocationId cfg p = cfg.locationId) ∧
        (∀ s, p.locationId = some s → s ≠ "" →
          searchContactsLocationId cfg p = s)) ∧
      (∀ l : Option String,
        (l = none → getPipelinesLocationId cfg l = cfg.locationId) ∧
        (∀ s, l = some s → s ≠ "" → getPipelinesLocationId cfg l = s)) ∧
      (∀ p : SearchOpportunitiesReq,
        (p.location_id = none →
          searchOpportunitiesLocationId cfg p = cfg.locationId) ∧
        (∀ s, p.location_id = some s → s ≠ "" →
          searchOpportunitiesLocationId cfg p = s)) := by
  intro cfg
  refine ⟨fun c => ⟨fun h => ?_, fun s hs hne => ?_⟩,
          fun p => ⟨fun h => ?_, fun s hs hne => ?_⟩,
          fun l => ⟨fun h => ?_, fun s hs hne => ?_⟩,
          fun p => ⟨fun h => ?_, fun s hs hne => ?_⟩⟩ <;>
    simp_all [createContactLocationId, searchContactsLocationId,
      getPipelinesLocationId, searchOpportunitiesLocationId, jsOr]

/-- Witness for C8 (amended): the omitted case on `createContact` and the
supplied non-empty case on `searchOpportunities`. -/
theorem c8_witness :
    createContactLocationId cfg0 { locationId := none } = cfg0.locationId ∧
    searchOpportunitiesLocationId cfg0 { location_id := some "locX" } = "locX" :=
  ⟨((c8_amended cfg0).1 { locationId := none }).1 rfl,
   (((c8_amended cfg0).2.2.2 { location_id := some "locX" }).2 "locX") rfl
     (by decide)⟩

/-! ## C9: config mutation frame -/

/-- Claim C9: `updateAccessToken t` sets only `accessToken` (to `t`),
leaving `baseUrl`, `version` and `locationId` unchanged, and no other
client operation mutates any field of the config. -/
theorem c9_config_frame :
    (∀ (cfg : ClientConfig) (t : String),
      (configAfter (ClientOp.updateAccessToken t) cfg).accessToken = t ∧
      (configAfter (ClientOp.updateAccessToken t) cfg).baseUrl = cfg.baseUrl ∧
      (configAfter (ClientOp.updateAccessToken t) cfg).version = cfg.version ∧
      (configAfter (ClientOp.updateAccessToken t) cfg).locationId =
        cfg.locationId) ∧
    (∀ (op : ClientOp) (cfg : ClientConfig),
      op.isTokenUpdate = false → configAfter op cfg = cfg) := by
  constructor
  · intro cfg t
    exact ⟨rfl, rfl, rfl, rfl⟩
  · intro op cfg h
    cases op <;> first
      | rfl
      | simp [ClientOp.isTokenUpdate] at h

/-- Witness for C9: the token update on the fixture config, and a
non-mutating operation (`getContact`) leaving it unchanged. -/
theorem c9_witness :
    (configAfter (ClientOp.updateAccessToken "newTok") cfg0).accessToken =
      "newTok" ∧
    configAfter ClientOp.getContact cfg0 = cfg0 :=
  ⟨(c9_config_frame.1 cfg0 "newTok").1,
   c9_config_frame.2 ClientOp.getContact cfg0 rfl⟩

/-! ## C10: wrapResponse success invariant -/

/-- Claim C10: `wrapResponse` always yields `success = true` carrying the
given data, so every throwing-family client method (`createContact`,
`getLocationTag`, `getPipelines`, and the `searchLocations` method behind
the `search_locations` tool) that returns without throwing returns
`success:true`; hence the tool layer's `response.success === false` test
after such a call never fires. -/
theorem c10_wrap_success :
    (∀ d : Option Payload,
      (wrapResponse d).success = true ∧ (wrapResponse d).data = d) ∧
    (∀ (cfg : ClientConfig) (c : CreateContactReq)
       (remote : Except AxiosErr ContactBody) (r : ApiResult Payload),
      GHLApiClient.createContact cfg c remote = Except.ok r →
        r.success = true) ∧
    (∀ (locationId tagId : String) (remote : Except AxiosErr Payload)
       (r : ApiResult Payload),
      GHLApiClient.getLocationTag locationId tagId remote = Except.ok r →
        r.success = true) ∧
    (∀ (cfg : ClientConfig) (l : Option String)
       (remote : Except AxiosErr Payload) (r : ApiResult Payload),
      GHLApiClient.getPipelines cfg l remote = Except.ok r →
        r.success = true) ∧
    (∀ (p : SearchLocationsReq) (remote : Except AxiosErr LocationsBody)
       (r : ApiResult LocationsBody),
      GHLApiClient.searchLocations p remote = Except.ok r →
        ¬r.success = false) := by
  refine ⟨fun d => ⟨rfl, rfl⟩, ?_, ?_, ?_, ?_⟩
  · intro cfg c remote r h
    cases remote with
    | ok body =>
        simp [GHLApiClient.createContact] at h
        rw [← h]
        rfl
    | error e => simp [GHLApiClient.createContact] at h
  · intro locationId tagId remote r h
    cases remote with
    | ok body =>
        simp [GHLApiClient.getLocationTag] at h
        rw [← h]
        rfl
    | error e => simp [GHLApiClient.getLocationTag] at h
  · intro cfg l remote r h
    cases remote with
    | ok body =>
        simp [GHLApiClient.getPipelines] at h
        rw [← h]
        rfl
    | error e => simp [GHLApiClient.getPipelines] at h
  · intro p remote r h
    cases remote with
    | ok body =>
        simp [GHLApiClient.searchLocations] at h
        rw [← h]
        simp [wrapResponse]
    | error e => simp [GHLApiClient.searchLocations] at h

/-- Witness for C10: a concrete non-thrown `createContact` result has
`success = true`. -/
theorem c10_witness :
    (wrapResponse (none : Option Payload)).success = true ∧
    (wrapResponse (some ({ raw := "contact-1" } : Payload))).success = true :=
  ⟨(c10_wrap_success.1 none).1,
   c10_wrap_success.2.1 cfg0 { locationId := none }
     (Except.ok { contact := some { raw := "contact-1" } })
     (wrapResponse (some { raw := "contact-1" })) rfl⟩

/-! ## C5: upload_media_file mutually exclusive parameters -/

/-- Claim C5: any `upload_media_file` arguments supplying neither a
truthy `file` nor both `hosted` and a truthy `fileUrl` make the tool
throw one of its two descriptive validation errors before the API client
upload method is invoked (second component `false` = no client call). -/
theorem c5_upload_validation :
    ∀ (cfg : ClientConfig) (p : UploadMediaArgs)
      (remote : Except AxiosErr UploadBody),
      optStrTruthy p.file = false →
      ¬(boolTruthy p.hosted = true ∧ optStrTruthy p.fileUrl = true) →
      (MediaTools.uploadMediaFile cfg p remote).2 = false ∧
      ((MediaTools.uploadMediaFile cfg p remote).1 =
          Except.error ("Failed to upload media file: " ++
            "fileUrl is required when hosted=true") ∨
       (MediaTools.uploadMediaFile cfg p remote).1 =
          Except.error ("Failed to upload media file: " ++
            "file is required when hosted=false or not specified")) := by
  intro cfg p remote hf hnot
  by_cases hb : boolTruthy p.hosted
  · have hu : optStrTruthy p.fileUrl = false := by
      cases hfu : optStrTruthy p.fileUrl
      · rfl
      · exact absurd ⟨hb, hfu⟩ hnot
    refine ⟨?_, Or.inl ?_⟩ <;> simp [MediaTools.uploadMediaFile, hb, hu]
  · have hb' : boolTruthy p.hosted = false := by
      cases hbv : boolTruthy p.hosted
      · rfl
      · exact absurd hbv hb
    refine ⟨?_, Or.inr ?_⟩ <;> simp [MediaTools.uploadMediaFile, hb', hf]

/-- Witness for C5: the empty argument object throws the direct-file
validation error without calling the client. -/
theorem c5_witness :
    (MediaTools.uploadMediaFile cfg0 uploadArgs0
        (Except.ok { fileId := some "f1", url := none })).2 = false ∧
    ((MediaTools.uploadMediaFile cfg0 uploadArgs0
        (Except.ok { fileId := some "f1", url := none })).1 =
        Except.error ("Failed to upload media file: " ++
          "fileUrl is required when hosted=true") ∨
     (MediaTools.uploadMediaFile cfg0 uploadArgs0
        (Except.ok { fileId := some "f1", url := none })).1 =
        Except.error ("Failed to upload media file: " ++
          "file is required when hosted=false or not specified")) :=
  c5_upload_validation cfg0 uploadArgs0
    (Except.ok { fileId := some "f1", url := none }) rfl (by decide)

/-! ## C7: get_opportunity error-message propagation -/

/-- Claim C7: for every remote 404 failure of the underlying
`getOpportunity` client call, the `get_opportunity` tool handler (the
dispatch case of `executeTool('get_opportunity', ...)`) throws an error
whose message contains both the action prefix
"Failed to get opportunity" and the status/message produced by the
central error handler (`GHL API Error (404): ...`). -/
theorem c7_error_propagation :
    ∀ (e : AxiosErr) (r : HttpResponse),
      e.response = some r → r.status = 404 →
      OpportunityTools.dispatchTable.lookup "get_opportunity" =
        some "getOpportunity" ∧
      apiErrStatus e = 404 ∧
      ∃ m : String,
        OpportunityTools.getOpportunity (Except.error e) = Except.error m ∧
        "Failed to get opportunity".data <:+: m.data ∧
        (handleApiError e).data <:+: m.data := by
  intro e r h1 h2
  refine ⟨by decide, by simp [apiErrStatus, h1, h2], ?_⟩
  have hX : handleApiError (plainErr (interceptReject e)) =
      "GHL API Error (500): " ++ handleApiError e :=
    doubleWrapEq _ (handleApiErrorNeEmpty e)
  refine ⟨"Failed to get opportunity: " ++
      handleApiError (plainErr (interceptReject e)), rfl, ?_, ?_⟩
  · apply List.IsPrefix.isInfix
    rw [String.data_append]
    have hsplit : ("Failed to get opportunity: ").data =
        ("Failed to get opportunity").data ++ (": ").data := by decide
    rw [hsplit, List.append_assoc]
    exact List.prefix_append _ _
  · apply List.IsSuffix.isInfix
    rw [hX, String.data_append, String.data_append, ← List.append_assoc]
    exact List.suffix_append _ _

/-- Witness for C7: the concrete 404 rejection `ax404`. -/
theorem c7_witness :
    OpportunityTools.dispatchTable.lookup "get_opportunity" =
      some "getOpportunity" ∧
    apiErrStatus ax404 = 404 ∧
    ∃ m : String,
      OpportunityTools.getOpportunity (Except.error ax404) = Except.error m ∧
      "Failed to get opportunity".data <:+: m.data ∧
      (handleApiError ax404).data <:+: m.data :=
  c7_error_propagation ax404
    { status := 404, data := some { message := some (MsgField.str "Not found") } }
    rfl rfl

/-! ## C1: catalog names vs dispatcher cases -/

/-- Claim C1: for every tool module, every tool name declared in its
`getToolDefinitions` catalog is a case handled by its `executeTool`
dispatcher, and any name not in the catalog makes `executeTool` hit the
`default` branch, which throws the module's unknown-tool error naming the
offending tool before any handler (and hence any API client method) can
run. -/
theorem c1_catalog_dispatch :
    ((∀ n ∈ LocationTools.toolNames,
        isHandled (LocationTools.executeTool n) = true) ∧
     (∀ n, n ∉ LocationTools.toolNames →
        LocationTools.executeTool n =
          Except.error ("Unknown location tool: " ++ n))) ∧
    ((∀ n ∈ ConversationTools.toolNames,
        isHandled (ConversationTools.executeTool n) = true) ∧
     (∀ n, n ∉ ConversationTools.toolNames →
        ConversationTools.executeTool n =
          Except.error ("Unknown tool: " ++ n))) ∧
    ((∀ n ∈ EmailISVTools.toolNames,
        isHandled (EmailISVTools.executeTool n) = true) ∧
     (∀ n, n ∉ EmailISVTools.toolNames →
        EmailISVTools.executeTool n =
          Except.error ("Unknown email ISV tool: " ++ n))) ∧
    ((∀ n ∈ ContactTools.toolNames,
        isHandled (ContactTools.executeTool n) = true) ∧
     (∀ n, n ∉ ContactTools.toolNames →
        ContactTools.executeTool n =
          Except.error ("Unknown tool: " ++ n))) ∧
    ((∀ n ∈ EmailTools.toolNames,
        isHandled (EmailTools.executeTool n) = true) ∧
     (∀ n, n ∉ EmailTools.toolNames →
        EmailTools.executeTool n =
          Except.error ("Unknown email tool: " ++ n))) ∧
    ((∀ n ∈ MediaTools.toolNames,
        isHandled (MediaTools.executeTool n) = true) ∧
     (∀ n, n ∉ MediaTools.toolNames →
        MediaTools.executeTool n =
          Except.error ("Unknown media tool: " ++ n))) ∧
    ((∀ n ∈ OpportunityTools.toolNames,
        isHandled (OpportunityTools.executeTool n) = true) ∧
     (∀ n, n ∉ OpportunityTools.toolNames →
        OpportunityTools.executeTool n =
          Except.error ("Unknown opportunity tool: " ++ n))) ∧
    ((∀ n ∈ WorkflowTools.toolNames,
        isHandled (WorkflowTools.executeTool n) = true) ∧
     (∀ n, n ∉ WorkflowTools.toolNames →
        WorkflowTools.executeTool n =
          Except.error ("Unknown workflow tool: " ++ n))) := by
  refine ⟨⟨by decide, ?_⟩, ⟨by decide, ?_⟩, ⟨by decide, ?_⟩, ⟨by decide, ?_⟩,
          ⟨by decide, ?_⟩, ⟨by decide, ?_⟩, ⟨by decide, ?_⟩, ⟨by decide, ?_⟩⟩
  · intro n hn
    have hsub : ∀ k ∈ LocationTools.dispatchTable.map Prod.fst,
        k ∈ LocationTools.toolNames := by decide
    have hk := lookupNoneOfNotMemKeys n LocationTools.dispatchTable
      (fun hmem => hn (hsub n hmem))
    simp [LocationTools.executeTool, hk]
  · intro n hn
    have hsub : ∀ k ∈ ConversationTools.dispatchTable.map Prod.fst,
        k ∈ ConversationTools.toolNames := by decide
    have hk := lookupNoneOfNotMemKeys n ConversationTools.dispatchTable
      (fun hmem => hn (hsub n hmem))
    simp [ConversationTools.executeTool, hk]
  · intro n hn
    have hsub : ∀ k ∈ EmailISVTools.dispatchTable.map Prod.fst,
        k ∈ EmailISVTools.toolNames := by decide
    have hk := lookupNoneOfNotMemKeys n EmailISVTools.dispatchTable
      (fun hmem => hn (hsub n hmem))
    simp [EmailISVTools.executeTool, hk]
  · intro n hn
    have hsub : ∀ k ∈ ContactTools.dispatchTable.map Prod.fst,
        k ∈ ContactTools.toolNames := by decide
    have hk := lookupNoneOfNotMemKeys n ContactTools.dispatchTable
      (fun hmem => hn (hsub n hmem))
    simp [ContactTools.executeTool, hk]
  · intro n hn
    have hsub : ∀ k ∈ EmailTools.dispatchTable.map Prod.fst,
        k ∈ EmailTools.toolNames := by decide
    have hk := lookupNoneOfNotMemKeys n EmailTools.dispatchTable
      (fun hmem => hn (hsub n hmem))
    simp [EmailTools.executeTool, hk]
  · intro n hn
    have hsub : ∀ k ∈ MediaTools.dispatchTable.map Prod.fst,
        k ∈ MediaTools.toolNames := by decide
    have hk := lookupNoneOfNotMemKeys n MediaTools.dispatchTable
      (fun hmem => hn (hsub n hmem))
    simp [MediaTools.executeTool, hk]
  · intro n hn
    have hsub : ∀ k ∈ OpportunityTools.dispatchTable.map Prod.fst,
        k ∈ OpportunityTools.toolNames := by decide
    have hk := lookupNoneOfNotMemKeys n OpportunityTools.dispatchTable
      (fun hmem => hn (hsub n hmem))
    simp [OpportunityTools.executeTool, hk]
  · intro n hn
    have hsub : ∀ k ∈ WorkflowTools.dispatchTable.map Prod.fst,
        k ∈ WorkflowTools.toolNames := by decide
    have hk := lookupNoneOfNotMemKeys n WorkflowTools.dispatchTable
      (fun hmem => hn (hsub n hmem))
    simp [WorkflowTools.executeTool, hk]

/-- Witness for C1: a declared name dispatches to its handler; a name
outside the catalog produces the unknown-tool error naming it. -/
theorem c1_witness :
    isHandled (LocationTools.executeTool "search_locations") = true ∧
    MediaTools.executeTool "no_such_tool" =
      Except.error ("Unknown media tool: " ++ "no_such_tool") :=
  ⟨c1_catalog_dispatch.1.1 "search_locations" (by decide),
   c1_catalog_dispatch.2.2.2.2.2.1.2 "no_such_tool" (by decide)⟩
